import Mathlib

/-!
Shallow embedding of the Windows serial-port backend of `serialport-rs`
(`src/sys/windows/com.rs`). Native Windows calls (CreateFileW, GetCommState,
SetCommState, SetCommTimeouts, DuplicateHandle, ReadFile) are modelled as
oracle parameters describing the outcome the OS reports; everything the Rust
code computes around them is embedded as executable Lean functions. Machine
integers (`DWORD`) are modelled as `Nat` with the explicit bound `DWORD_MAX`
where overflow matters.

The `dcb` helper module and the OS-error mapper of the repository are not part
of the provided source tree; the definitions standing in for them are marked
"Modelled from the spec:" and follow the specification's wording.
-/

/-- Portable data-bits setting (the `DataBits` enum of the crate). -/
inductive DataBits
| Five
| Six
| Seven
| Eight
deriving DecidableEq

/-- Portable parity setting (the `Parity` enum of the crate). -/
inductive Parity
| None
| Odd
| Even
deriving DecidableEq

/-- Portable stop-bits setting (the `StopBits` enum of the crate). -/
inductive StopBits
| One
| Two
deriving DecidableEq

/-- Portable flow-control setting (the `FlowControl` enum of the crate). -/
inductive FlowControl
| None
| Software
| Hardware
deriving DecidableEq

/-- The error taxonomy of the crate (`ErrorKind`). -/
inductive ErrorKind
| NoDevice
| InvalidInput
| Unknown
| Io
deriving DecidableEq

/-- A crate-level error: a kind plus a human-readable description. -/
structure Error where
  kind : ErrorKind
  description : String
deriving DecidableEq

/-- Outcome class of a failed native call, as reported by GetLastError. -/
inductive OsError
| accessDenied
| fileNotFound
| invalidName
| other (code : Nat)
deriving DecidableEq

/-- Modelled from the spec: the OS-error mapper (`sys::windows::error::last_os_error`,
whose source file is not in the provided tree) translates the native last-error
code into the portable taxonomy — access denied or a missing device yield
`NoDevice`, a device name that cannot be encoded as a native path yields
`InvalidInput`, and any other native failure yields `Io`. -/
def last_os_error : OsError → Error
| OsError.accessDenied => { kind := ErrorKind.NoDevice, description := "Access denied" }
| OsError.fileNotFound => { kind := ErrorKind.NoDevice, description := "No such device" }
| OsError.invalidName => { kind := ErrorKind.InvalidInput, description := "Invalid device name" }
| OsError.other _ => { kind := ErrorKind.Io, description := "OS error" }

/-- The native control block (`DCB` of winapi), restricted to the fields this
backend reads or writes. Each bit-field is modelled as the natural number the
winapi accessor returns. -/
structure DCB where
  BaudRate : Nat
  ByteSize : Nat
  Parity : Nat
  StopBits : Nat
  fOutxCtsFlow : Nat
  fRtsControl : Nat
  fOutX : Nat
  fInX : Nat
deriving DecidableEq

/-- winapi constant `NOPARITY`. -/
def NOPARITY : Nat := 0

/-- winapi constant `ODDPARITY`. -/
def ODDPARITY : Nat := 1

/-- winapi constant `EVENPARITY`. -/
def EVENPARITY : Nat := 2

/-- winapi constant `ONESTOPBIT`. -/
def ONESTOPBIT : Nat := 0

/-- winapi constant `TWOSTOPBITS`. -/
def TWOSTOPBITS : Nat := 2

/-- winapi constant `RTS_CONTROL_HANDSHAKE` (the nonzero RTS-handshake mode). -/
def RTS_CONTROL_HANDSHAKE : Nat := 2

/-- `DWORD::MAX`, the largest representable 32-bit value. -/
def DWORD_MAX : Nat := 4294967295

namespace dcb

/-- Modelled from the spec: `dcb::init` (file `sys/windows/dcb.rs`, not in the
provided tree) prepares control-block fields outside the portable settings
(binary mode and similar); on the fields modelled here it leaves the block
unchanged. -/
def init (d : DCB) : DCB := d

/-- Modelled from the spec: `dcb::set_baud_rate` copies the integer directly
into the native rate field, with no range validation of its own. -/
def set_baud_rate (d : DCB) (baud_rate : Nat) : DCB :=
  { d with BaudRate := baud_rate }

/-- Modelled from the spec: `dcb::set_data_bits` maps each portable enum value
to exactly one native `ByteSize` value (the bit count itself). -/
def set_data_bits (d : DCB) (data_bits : DataBits) : DCB :=
  { d with ByteSize :=
      match data_bits with
      | DataBits.Five => 5
      | DataBits.Six => 6
      | DataBits.Seven => 7
      | DataBits.Eight => 8 }

/-- Modelled from the spec: `dcb::set_parity` maps each portable parity value
to exactly one native `Parity` field value. -/
def set_parity (d : DCB) (parity : Parity) : DCB :=
  { d with Parity :=
      match parity with
      | Parity.None => NOPARITY
      | Parity.Odd => ODDPARITY
      | Parity.Even => EVENPARITY }

/-- Modelled from the spec: `dcb::set_stop_bits` maps each portable stop-bits
value to exactly one native `StopBits` field value. -/
def set_stop_bits (d : DCB) (stop_bits : StopBits) : DCB :=
  { d with StopBits :=
      match stop_bits with
      | StopBits.One => ONESTOPBIT
      | StopBits.Two => TWOSTOPBITS }

/-- Modelled from the spec: `dcb::set_flow_control` encodes the chosen mode
into the hardware-handshake flags (CTS out-flow and RTS control) versus the
software XON/XOFF flags (`fOutX`, `fInX`), clearing the flags of the modes not
selected. -/
def set_flow_control (d : DCB) (flow_control : FlowControl) : DCB :=
  { d with
    fOutxCtsFlow :=
      match flow_control with
      | FlowControl.None => 0
      | FlowControl.Software => 0
      | FlowControl.Hardware => 1
    fRtsControl :=
      match flow_control with
      | FlowControl.None => 0
      | FlowControl.Software => 0
      | FlowControl.Hardware => RTS_CONTROL_HANDSHAKE
    fOutX :=
      match flow_control with
      | FlowControl.None => 0
      | FlowControl.Software => 1
      | FlowControl.Hardware => 0
    fInX :=
      match flow_control with
      | FlowControl.None => 0
      | FlowControl.Software => 1
      | FlowControl.Hardware => 0 }

end dcb

/-- `std::time::Duration`: whole seconds plus a sub-second nanosecond part. -/
structure Duration where
  secs : Nat
  nanos : Nat
deriving DecidableEq

/-- `Duration::as_millis`: the total number of whole milliseconds. -/
def Duration.as_millis (d : Duration) : Nat :=
  d.secs * 1000 + d.nanos / 1000000

/-- `DWORD::try_from` on an unbounded count: succeeds exactly when the value
fits in 32 bits. -/
def DWORD.tryFrom (n : Nat) : Option Nat :=
  if n ≤ DWORD_MAX then some n else none

/-- The conversion applied to each direction's timeout intent in
`SerialPort::set_timeouts`: `None` becomes `0`; `Some(duration)` becomes
`DWORD::try_from(duration.as_millis()).map_or(DWORD::MAX, |timeout| timeout.max(1))`. -/
def timeout_ms : Option Duration → Nat
| some duration => (DWORD.tryFrom duration.as_millis).elim DWORD_MAX (fun t => max t 1)
| none => 0

/-- The native `COMMTIMEOUTS` structure. -/
structure COMMTIMEOUTS where
  ReadIntervalTimeout : Nat
  ReadTotalTimeoutMultiplier : Nat
  ReadTotalTimeoutConstant : Nat
  WriteTotalTimeoutMultiplier : Nat
  WriteTotalTimeoutConstant : Nat
deriving DecidableEq

/-- The `COMMTIMEOUTS` value `SerialPort::set_timeouts` hands to the native
`SetCommTimeouts` call for a given pair of timeout intents. -/
def comm_timeouts (read_timeout write_timeout : Option Duration) : COMMTIMEOUTS :=
  { ReadIntervalTimeout := 1
    ReadTotalTimeoutMultiplier := 0
    ReadTotalTimeoutConstant := timeout_ms read_timeout
    WriteTotalTimeoutMultiplier := 0
    WriteTotalTimeoutConstant := timeout_ms write_timeout }

/-- The `SerialPort` struct of the Windows backend: the native handle plus the
per-handle configuration cache (read timeout, write timeout, port name). -/
structure SerialPort where
  handle : Nat
  read_timeout : Option Duration
  write_timeout : Option Duration
  port_name : Option String
deriving DecidableEq

/-- `SerialPort::set_timeouts`. The native `SetCommTimeouts` call is the oracle
`setCommTimeouts`; the pair returned is (call result, state of `self` after the
call): on native failure the mapped OS error is returned and `self` is
untouched, on success both cache fields are overwritten with the requested
intents. -/
def SerialPort.set_timeouts (setCommTimeouts : COMMTIMEOUTS → Except OsError Unit)
    (p : SerialPort) (read_timeout write_timeout : Option Duration) :
    Except Error Unit × SerialPort :=
  match setCommTimeouts (comm_timeouts read_timeout write_timeout) with
  | Except.error e => (Except.error (last_os_error e), p)
  | Except.ok _ =>
      (Except.ok (), { p with read_timeout := read_timeout, write_timeout := write_timeout })

/-- `SerialPort::set_read_timeout`: delegates to `set_timeouts` with the cached
write timeout. -/
def SerialPort.set_read_timeout (setCommTimeouts : COMMTIMEOUTS → Except OsError Unit)
    (p : SerialPort) (read_timeout : Option Duration) : Except Error Unit × SerialPort :=
  SerialPort.set_timeouts setCommTimeouts p read_timeout p.write_timeout

/-- `SerialPort::set_write_timeout`: delegates to `set_timeouts` with the cached
read timeout. -/
def SerialPort.set_write_timeout (setCommTimeouts : COMMTIMEOUTS → Except OsError Unit)
    (p : SerialPort) (write_timeout : Option Duration) : Except Error Unit × SerialPort :=
  SerialPort.set_timeouts setCommTimeouts p p.read_timeout write_timeout

/-- `SerialPort::try_clone`. The native `DuplicateHandle` call is the oracle
`duplicateHandle`: on success the new struct holds the duplicated descriptor
and copies of the source's cached timeouts and name. -/
def SerialPort.try_clone (duplicateHandle : Except OsError Nat) (p : SerialPort) :
    Except Error SerialPort :=
  match duplicateHandle with
  | Except.ok cloned_handle =>
      Except.ok { handle := cloned_handle
                  port_name := p.port_name
                  read_timeout := p.read_timeout
                  write_timeout := p.write_timeout }
  | Except.error e => Except.error (last_os_error e)

/-- `SerialPort::open_from_raw_handle`: adopts a raw handle with both cached
timeouts and the port name reset to `None`. -/
def SerialPort.open_from_raw_handle (handle : Nat) : SerialPort :=
  { handle := handle, read_timeout := none, write_timeout := none, port_name := none }

/-- `SerialPort::data_bits`: decode the `ByteSize` field of the control block
read from the device; an unrecognized value yields the `Unknown` error. -/
def SerialPort.data_bits (getDcb : Except Error DCB) : Except Error DataBits :=
  match getDcb with
  | Except.error e => Except.error e
  | Except.ok d =>
      if d.ByteSize = 5 then Except.ok DataBits.Five
      else if d.ByteSize = 6 then Except.ok DataBits.Six
      else if d.ByteSize = 7 then Except.ok DataBits.Seven
      else if d.ByteSize = 8 then Except.ok DataBits.Eight
      else Except.error { kind := ErrorKind.Unknown
                          description := "Invalid data bits setting encountered" }

/-- `SerialPort::parity`: decode the `Parity` field of the control block read
from the device; an unrecognized value yields the `Unknown` error. -/
def SerialPort.parity (getDcb : Except Error DCB) : Except Error Parity :=
  match getDcb with
  | Except.error e => Except.error e
  | Except.ok d =>
      if d.Parity = ODDPARITY then Except.ok Parity.Odd
      else if d.Parity = EVENPARITY then Except.ok Parity.Even
      else if d.Parity = NOPARITY then Except.ok Parity.None
      else Except.error { kind := ErrorKind.Unknown
                          description := "Invalid parity bits setting encountered" }

/-- `SerialPort::stop_bits`: decode the `StopBits` field of the control block
read from the device; an unrecognized value yields the `Unknown` error. -/
def SerialPort.stop_bits (getDcb : Except Error DCB) : Except Error StopBits :=
  match getDcb with
  | Except.error e => Except.error e
  | Except.ok d =>
      if d.StopBits = TWOSTOPBITS then Except.ok StopBits.Two
      else if d.StopBits = ONESTOPBIT then Except.ok StopBits.One
      else Except.error { kind := ErrorKind.Unknown
                          description := "Invalid stop bits setting encountered" }

/-- `SerialPort::flow_control`: hardware-handshake flags are inspected first,
then the software flags, and `None` is returned when neither is set. Every
branch succeeds. -/
def SerialPort.flow_control (getDcb : Except Error DCB) : Except Error FlowControl :=
  match getDcb with
  | Except.error e => Except.error e
  | Except.ok d =>
      if d.fOutxCtsFlow ≠ 0 ∨ d.fRtsControl ≠ 0 then Except.ok FlowControl.Hardware
      else if d.fOutX ≠ 0 ∨ d.fInX ≠ 0 then Except.ok FlowControl.Software
      else Except.ok FlowControl.None

/-- I/O-path error kinds used by the `io::Read` implementation. -/
inductive IoErrorKind
| TimedOut
| OsFail
deriving DecidableEq

/-- An `std::io::Error`: a kind plus a message. -/
structure IoError where
  kind : IoErrorKind
  message : String
deriving DecidableEq

/-- The `io::Read` implementation for `&SerialPort`. The native `ReadFile` call
is the oracle `readFile`: `Except.error e` is a failed native call whose mapped
error is `e`, `Except.ok len` a successful call transferring `len` bytes. A
successful native call transferring zero bytes is reported as `TimedOut`. -/
def SerialPort.read (readFile : Except IoError Nat) : Except IoError Nat :=
  match readFile with
  | Except.error e => Except.error e
  | Except.ok len =>
      if len ≠ 0 then Except.ok len
      else Except.error { kind := IoErrorKind.TimedOut, message := "Operation timed out" }

/-- The `SerialPortBuilder` carrying the initial configuration for `open`. -/
structure SerialPortBuilder where
  baud_rate : Nat
  data_bits : DataBits
  parity : Parity
  stop_bits : StopBits
  flow_control : FlowControl
  read_timeout : Option Duration
  write_timeout : Option Duration
deriving DecidableEq

/-- winapi constant `GENERIC_READ`. -/
def GENERIC_READ : Nat := 2147483648

/-- winapi constant `GENERIC_WRITE`. -/
def GENERIC_WRITE : Nat := 1073741824

/-- Outcomes of the native calls `SerialPort::open` makes, as oracles.
`createFile` is `CreateFileW` applied to a resolved name, a desired-access
mask and a share mode (a share mode of 0 means no sharing, i.e. exclusive
access); `get_dcb` and `set_dcb` read and commit the control block for a
handle and `setCommTimeouts` configures the timeouts for a handle, each
reporting the raw native failure class on error. -/
structure NativeEnv where
  createFile : List Char → Nat → Nat → Except OsError Nat
  get_dcb : Nat → Except OsError DCB
  set_dcb : Nat → DCB → Except OsError Unit
  setCommTimeouts : Nat → COMMTIMEOUTS → Except OsError Unit

/-- The device-name resolution in `SerialPort::open`: the long-form
`\\.\`-prefixed path followed by a terminating NUL. -/
def resolve_name (path : String) : List Char :=
  "\\\\.\\".data ++ path.data ++ [Char.ofNat 0]

/-- The control-block transformation `SerialPort::open` applies before
committing: `init`, then the five setters, in source order. -/
def apply_builder (d : DCB) (builder : SerialPortBuilder) : DCB :=
  dcb.set_flow_control
    (dcb.set_stop_bits
      (dcb.set_parity
        (dcb.set_data_bits
          (dcb.set_baud_rate (dcb.init d) builder.baud_rate)
          builder.data_bits)
        builder.parity)
      builder.stop_bits)
    builder.flow_control

/-- `SerialPort::open` (named `open_port` because `open` is a Lean keyword):
resolve the name, create the file handle with the `GENERIC_READ | GENERIC_WRITE`
access mask and share mode 0 (exclusive access), read the control block, apply
the builder's settings and commit the whole block, then apply the builder's
timeouts; only then is the handle returned with its name recorded. The
`CreateFileW` failure is mapped through the error mapper in `com.rs` itself;
the `dcb::get_dcb`/`dcb::set_dcb` wrappers (file `dcb.rs`, not in the provided
tree, modelled from the spec) surface their native failures through the same
mapper, so that mapping is applied here to their raw failures as well. -/
def SerialPort.open_port (env : NativeEnv) (builder : SerialPortBuilder) (path : String) :
    Except Error SerialPort :=
  match env.createFile (resolve_name path) (GENERIC_READ ||| GENERIC_WRITE) 0 with
  | Except.error e => Except.error (last_os_error e)
  | Except.ok handle =>
      match env.get_dcb handle with
      | Except.error e => Except.error (last_os_error e)
      | Except.ok d =>
          match env.set_dcb handle (apply_builder d builder) with
          | Except.error e => Except.error (last_os_error e)
          | Except.ok _ =>
              match SerialPort.set_timeouts (env.setCommTimeouts handle)
                  (SerialPort.open_from_raw_handle handle)
                  builder.read_timeout builder.write_timeout with
              | (Except.error e, _) => Except.error e
              | (Except.ok _, com) => Except.ok { com with port_name := some path }

theorem dcb_data_bits_set_get (d : DCB) (v : DataBits) :
    SerialPort.data_bits (Except.ok (dcb.set_data_bits d v)) = Except.ok v := by
  cases v <;> rfl

theorem dcb_parity_set_get (d : DCB) (v : Parity) :
    SerialPort.parity (Except.ok (dcb.set_parity d v)) = Except.ok v := by
  cases v <;> rfl

theorem dcb_stop_bits_set_get (d : DCB) (v : StopBits) :
    SerialPort.stop_bits (Except.ok (dcb.set_stop_bits d v)) = Except.ok v := by
  cases v <;> rfl

theorem dcb_flow_control_set_get (d : DCB) (v : FlowControl) :
    SerialPort.flow_control (Except.ok (dcb.set_flow_control d v)) = Except.ok v := by
  cases v <;> rfl

/-- Claim C1: for every supported portable enum value of data bits, parity,
stop bits and flow control, writing it into an arbitrary native control block
with the corresponding set translation and then decoding that block with the
corresponding get translation returns exactly the value that was set. -/
theorem C1_set_get_roundtrip :
    ∀ d : DCB,
      (∀ v : DataBits, SerialPort.data_bits (Except.ok (dcb.set_data_bits d v)) = Except.ok v) ∧
      (∀ v : Parity, SerialPort.parity (Except.ok (dcb.set_parity d v)) = Except.ok v) ∧
      (∀ v : StopBits, SerialPort.stop_bits (Except.ok (dcb.set_stop_bits d v)) = Except.ok v) ∧
      (∀ v : FlowControl,
        SerialPort.flow_control (Except.ok (dcb.set_flow_control d v)) = Except.ok v) :=
  fun d => ⟨dcb_data_bits_set_get d, dcb_parity_set_get d,
            dcb_stop_bits_set_get d, dcb_flow_control_set_get d⟩

/-- Claim C2: the timeout conversion maps `None` to a total-timeout constant of
0 and `Some d` to `d`'s whole-millisecond count rounded up to at least 1 and
saturating at `DWORD::MAX`; the inter-byte interval timeout field is always 1
and both total-timeout multipliers are 0. -/
theorem C2_timeout_conversion :
    ∀ read_timeout write_timeout : Option Duration,
      (comm_timeouts read_timeout write_timeout).ReadIntervalTimeout = 1 ∧
      (comm_timeouts read_timeout write_timeout).ReadTotalTimeoutMultiplier = 0 ∧
      (comm_timeouts read_timeout write_timeout).WriteTotalTimeoutMultiplier = 0 ∧
      (comm_timeouts read_timeout write_timeout).ReadTotalTimeoutConstant =
        timeout_ms read_timeout ∧
      (comm_timeouts read_timeout write_timeout).WriteTotalTimeoutConstant =
        timeout_ms write_timeout ∧
      timeout_ms none = 0 ∧
      (∀ d : Duration, d.as_millis ≤ DWORD_MAX → timeout_ms (some d) = max d.as_millis 1) ∧
      (∀ d : Duration, DWORD_MAX < d.as_millis → timeout_ms (some d) = DWORD_MAX) ∧
      (∀ d : Duration, 1 ≤ timeout_ms (some d)) := by
  intro rt wt
  refine ⟨rfl, rfl, rfl, rfl, rfl, rfl, ?_, ?_, ?_⟩
  · intro d h
    simp [timeout_ms, DWORD.tryFrom, h]
  · intro d h
    simp [timeout_ms, DWORD.tryFrom, Nat.not_le.mpr h]
  · intro d
    by_cases h : d.as_millis ≤ DWORD_MAX
    · simp [timeout_ms, DWORD.tryFrom, h]
    · simp [timeout_ms, DWORD.tryFrom, h]
      decide

theorem C2_witness :
    timeout_ms (some { secs := 0, nanos := 500000 }) =
      max (Duration.as_millis { secs := 0, nanos := 500000 }) 1 ∧
    timeout_ms (some { secs := 4294968, nanos := 0 }) = DWORD_MAX ∧
    (comm_timeouts none none).ReadIntervalTimeout = 1 ∧
    1 ≤ timeout_ms (some { secs := 1, nanos := 0 }) :=
  ⟨(C2_timeout_conversion none none).2.2.2.2.2.2.1 { secs := 0, nanos := 500000 } (by decide),
   (C2_timeout_conversion none none).2.2.2.2.2.2.2.1 { secs := 4294968, nanos := 0 } (by decide),
   (C2_timeout_conversion none none).1,
   (C2_timeout_conversion none none).2.2.2.2.2.2.2.2 { secs := 1, nanos := 0 }⟩

/-- Claim C3: a failed native read surfaces the mapped native error; a
successful native read of at least one byte is returned as a success with that
byte count; a successful native read of zero bytes is reported as `TimedOut`; a
zero-length successful read is never an outcome. -/
theorem C3_read_contract :
    ∀ readFile : Except IoError Nat,
      (∀ e, readFile = Except.error e → SerialPort.read readFile = Except.error e) ∧
      (∀ len, readFile = Except.ok len → 1 ≤ len → SerialPort.read readFile = Except.ok len) ∧
      (readFile = Except.ok 0 →
        SerialPort.read readFile =
          Except.error { kind := IoErrorKind.TimedOut, message := "Operation timed out" }) ∧
      SerialPort.read readFile ≠ Except.ok 0 := by
  intro r
  refine ⟨?_, ?_, ?_, ?_⟩
  · rintro e rfl
    rfl
  · rintro len rfl h
    have hne : len ≠ 0 := Nat.one_le_iff_ne_zero.mp h
    simp [SerialPort.read, hne]
  · rintro rfl
    rfl
  · cases r with
    | error e => simp [SerialPort.read]
    | ok len =>
        by_cases h : len = 0
        · subst h
          simp [SerialPort.read]
        · simp [SerialPort.read, h]

theorem C3_witness :
    SerialPort.read (Except.error { kind := IoErrorKind.OsFail, message := "device gone" }) =
      Except.error { kind := IoErrorKind.OsFail, message := "device gone" } ∧
    SerialPort.read (Except.ok 3) = Except.ok 3 ∧
    SerialPort.read (Except.ok 0) =
      Except.error { kind := IoErrorKind.TimedOut, message := "Operation timed out" } ∧
    SerialPort.read (Except.ok 0) ≠ Except.ok 0 :=
  ⟨(C3_read_contract _).1 _ rfl,
   (C3_read_contract _).2.1 3 rfl (by decide),
   (C3_read_contract _).2.2.1 rfl,
   (C3_read_contract _).2.2.2⟩

/-- Claim C4: applying timeouts is atomic with respect to the per-handle cache:
if the single native timeout-configuration call fails, both cached timeouts are
left exactly as they were; if it succeeds, both cache fields equal the
requested intents. -/
theorem C4_set_timeouts_atomic :
    ∀ (f : COMMTIMEOUTS → Except OsError Unit) (p : SerialPort)
      (rt wt : Option Duration),
      (∀ e, f (comm_timeouts rt wt) = Except.error e →
        (SerialPort.set_timeouts f p rt wt).2.read_timeout = p.read_timeout ∧
        (SerialPort.set_timeouts f p rt wt).2.write_timeout = p.write_timeout ∧
        (SerialPort.set_timeouts f p rt wt).1 = Except.error (last_os_error e)) ∧
      (f (comm_timeouts rt wt) = Except.ok () →
        (SerialPort.set_timeouts f p rt wt).1 = Except.ok () ∧
        (SerialPort.set_timeouts f p rt wt).2.read_timeout = rt ∧
        (SerialPort.set_timeouts f p rt wt).2.write_timeout = wt) := by
  intro f p rt wt
  constructor
  · intro e h
    simp [SerialPort.set_timeouts, h]
  · intro h
    simp [SerialPort.set_timeouts, h]

theorem C4_witness :
    (SerialPort.set_timeouts (fun _ => Except.error OsError.accessDenied)
        { handle := 0, read_timeout := none, write_timeout := none, port_name := none }
        (some { secs := 1, nanos := 0 }) none).2.read_timeout = none ∧
    (SerialPort.set_timeouts (fun _ => Except.error OsError.accessDenied)
        { handle := 0, read_timeout := none, write_timeout := none, port_name := none }
        (some { secs := 1, nanos := 0 }) none).2.write_timeout = none ∧
    (SerialPort.set_timeouts (fun _ => Except.ok ())
        { handle := 0, read_timeout := none, write_timeout := none, port_name := none }
        (some { secs := 1, nanos := 0 }) none).2.read_timeout =
      some { secs := 1, nanos := 0 } :=
  ⟨((C4_set_timeouts_atomic (fun _ => Except.error OsError.accessDenied) _ _ _).1
      OsError.accessDenied rfl).1,
   ((C4_set_timeouts_atomic (fun _ => Except.error OsError.accessDenied) _ _ _).1
      OsError.accessDenied rfl).2.1,
   ((C4_set_timeouts_atomic (fun _ => Except.ok ()) _ _ _).2 rfl).2.1⟩

/-- Claim C5: for every native control block, the getters for data bits,
parity and stop bits decode the native field to exactly the portable enum
value whose set translation produces that field value, and fail with the
distinguished `Unknown` error when the field holds a value not produced by any
set — they never substitute a default. -/
theorem C5_decode_exact_or_unknown :
    ∀ d : DCB,
      ((∀ v : DataBits, SerialPort.data_bits (Except.ok d) = Except.ok v →
          d.ByteSize = (dcb.set_data_bits d v).ByteSize) ∧
       (∀ v : DataBits, d.ByteSize = (dcb.set_data_bits d v).ByteSize →
          SerialPort.data_bits (Except.ok d) = Except.ok v) ∧
       ((∀ w : DataBits, d.ByteSize ≠ (dcb.set_data_bits d w).ByteSize) →
          SerialPort.data_bits (Except.ok d) =
            Except.error { kind := ErrorKind.Unknown
                           description := "Invalid data bits setting encountered" })) ∧
      ((∀ v : Parity, SerialPort.parity (Except.ok d) = Except.ok v →
          d.Parity = (dcb.set_parity d v).Parity) ∧
       (∀ v : Parity, d.Parity = (dcb.set_parity d v).Parity →
          SerialPort.parity (Except.ok d) = Except.ok v) ∧
       ((∀ w : Parity, d.Parity ≠ (dcb.set_parity d w).Parity) →
          SerialPort.parity (Except.ok d) =
            Except.error { kind := ErrorKind.Unknown
                           description := "Invalid parity bits setting encountered" })) ∧
      ((∀ v : StopBits, SerialPort.stop_bits (Except.ok d) = Except.ok v →
          d.StopBits = (dcb.set_stop_bits d v).StopBits) ∧
       (∀ v : StopBits, d.StopBits = (dcb.set_stop_bits d v).StopBits →
          SerialPort.stop_bits (Except.ok d) = Except.ok v) ∧
       ((∀ w : StopBits, d.StopBits ≠ (dcb.set_stop_bits d w).StopBits) →
          SerialPort.stop_bits (Except.ok d) =
            Except.error { kind := ErrorKind.Unknown
                           description := "Invalid stop bits setting encountered" })) := by
  intro d
  refine ⟨⟨?_, ?_, ?_⟩, ⟨?_, ?_, ?_⟩, ⟨?_, ?_, ?_⟩⟩
  · intro v hv
    by_cases h5 : d.ByteSize = 5
    · simp [SerialPort.data_bits, h5] at hv
      cases hv
      simp [dcb.set_data_bits, h5]
    · by_cases h6 : d.ByteSize = 6
      · simp [SerialPort.data_bits, h5, h6] at hv
        cases hv
        simp [dcb.set_data_bits, h6]
      · by_cases h7 : d.ByteSize = 7
        · simp [SerialPort.data_bits, h5, h6, h7] at hv
          cases hv
          simp [dcb.set_data_bits, h7]
        · by_cases h8 : d.ByteSize = 8
          · simp [SerialPort.data_bits, h5, h6, h7, h8] at hv
            cases hv
            simp [dcb.set_data_bits, h8]
          · simp [SerialPort.data_bits, h5, h6, h7, h8] at hv
  · intro v hv
    cases v <;> simp [dcb.set_data_bits] at hv <;> simp [SerialPort.data_bits, hv]
  · intro h
    have h5 : d.ByteSize ≠ 5 := by simpa [dcb.set_data_bits] using h DataBits.Five
    have h6 : d.ByteSize ≠ 6 := by simpa [dcb.set_data_bits] using h DataBits.Six
    have h7 : d.ByteSize ≠ 7 := by simpa [dcb.set_data_bits] using h DataBits.Seven
    have h8 : d.ByteSize ≠ 8 := by simpa [dcb.set_data_bits] using h DataBits.Eight
    simp [SerialPort.data_bits, h5, h6, h7, h8]
  · intro v hv
    by_cases h1 : d.Parity = ODDPARITY
    · simp [SerialPort.parity, h1] at hv
      cases hv
      simpa [dcb.set_parity] using h1
    · by_cases h2 : d.Parity = EVENPARITY
      · simp [SerialPort.parity, h1, h2] at hv
        cases hv
        simpa [dcb.set_parity] using h2
      · by_cases h0 : d.Parity = NOPARITY
        · simp [SerialPort.parity, h1, h2, h0] at hv
          cases hv
          simpa [dcb.set_parity] using h0
        · simp [SerialPort.parity, h1, h2, h0] at hv
  · intro v hv
    cases v <;> simp [dcb.set_parity] at hv <;>
      simp [SerialPort.parity, hv, NOPARITY, ODDPARITY, EVENPARITY]
  · intro h
    have h1 : d.Parity ≠ ODDPARITY := by simpa [dcb.set_parity] using h Parity.Odd
    have h2 : d.Parity ≠ EVENPARITY := by simpa [dcb.set_parity] using h Parity.Even
    have h0 : d.Parity ≠ NOPARITY := by simpa [dcb.set_parity] using h Parity.None
    simp [SerialPort.parity, h1, h2, h0]
  · intro v hv
    by_cases h2 : d.StopBits = TWOSTOPBITS
    · simp [SerialPort.stop_bits, h2] at hv
      cases hv
      simpa [dcb.set_stop_bits] using h2
    · by_cases h1 : d.StopBits = ONESTOPBIT
      · simp [SerialPort.stop_bits, h2, h1] at hv
        cases hv
        simpa [dcb.set_stop_bits] using h1
      · simp [SerialPort.stop_bits, h2, h1] at hv
  · intro v hv
    cases v <;> simp [dcb.set_stop_bits] at hv <;>
      simp [SerialPort.stop_bits, hv, ONESTOPBIT, TWOSTOPBITS]
  · intro h
    have h2 : d.StopBits ≠ TWOSTOPBITS := by simpa [dcb.set_stop_bits] using h StopBits.Two
    have h1 : d.StopBits ≠ ONESTOPBIT := by simpa [dcb.set_stop_bits] using h StopBits.One
    simp [SerialPort.stop_bits, h2, h1]

theorem C5_witness :
    SerialPort.data_bits
        (Except.ok { BaudRate := 9600, ByteSize := 8, Parity := 0, StopBits := 0
                     fOutxCtsFlow := 0, fRtsControl := 0, fOutX := 0, fInX := 0 }) =
      Except.ok DataBits.Eight ∧
    SerialPort.data_bits
        (Except.ok { BaudRate := 9600, ByteSize := 9, Parity := 9, StopBits := 9
                     fOutxCtsFlow := 0, fRtsControl := 0, fOutX := 0, fInX := 0 }) =
      Except.error { kind := ErrorKind.Unknown
                     description := "Invalid data bits setting encountered" } ∧
    SerialPort.parity
        (Except.ok { BaudRate := 9600, ByteSize := 9, Parity := 9, StopBits := 9
                     fOutxCtsFlow := 0, fRtsControl := 0, fOutX := 0, fInX := 0 }) =
      Except.error { kind := ErrorKind.Unknown
                     description := "Invalid parity bits setting encountered" } ∧
    SerialPort.stop_bits
        (Except.ok { BaudRate := 9600, ByteSize := 9, Parity := 9, StopBits := 9
                     fOutxCtsFlow := 0, fRtsControl := 0, fOutX := 0, fInX := 0 }) =
      Except.error { kind := ErrorKind.Unknown
                     description := "Invalid stop bits setting encountered" } :=
  ⟨(C5_decode_exact_or_unknown _).1.2.1 DataBits.Eight (by decide),
   (C5_decode_exact_or_unknown _).1.2.2 (by intro w; cases w <;> decide),
   (C5_decode_exact_or_unknown _).2.1.2.2 (by intro w; cases w <;> decide),
   (C5_decode_exact_or_unknown _).2.2.2.2 (by intro w; cases w <;> decide)⟩

/-- Claim C6: the flow-control getter checks the hardware-handshake flags
before the software flags: it returns `Hardware` whenever a hardware flag is
set (even if software flags are also set), otherwise `Software` whenever a
software flag is set, otherwise `None`. -/
theorem C6_flow_control_priority :
    ∀ d : DCB,
      ((d.fOutxCtsFlow ≠ 0 ∨ d.fRtsControl ≠ 0) →
        SerialPort.flow_control (Except.ok d) = Except.ok FlowControl.Hardware) ∧
      (d.fOutxCtsFlow = 0 → d.fRtsControl = 0 → (d.fOutX ≠ 0 ∨ d.fInX ≠ 0) →
        SerialPort.flow_control (Except.ok d) = Except.ok FlowControl.Software) ∧
      (d.fOutxCtsFlow = 0 → d.fRtsControl = 0 → d.fOutX = 0 → d.fInX = 0 →
        SerialPort.flow_control (Except.ok d) = Except.ok FlowControl.None) := by
  intro d
  refine ⟨?_, ?_, ?_⟩
  · intro h
    simp [SerialPort.flow_control, h]
  · intro h1 h2 h3
    simp [SerialPort.flow_control, h1, h2, h3]
  · intro h1 h2 h3 h4
    simp [SerialPort.flow_control, h1, h2, h3, h4]

theorem C6_witness :
    SerialPort.flow_control
        (Except.ok { BaudRate := 0, ByteSize := 8, Parity := 0, StopBits := 0
                     fOutxCtsFlow := 1, fRtsControl := 2, fOutX := 1, fInX := 1 }) =
      Except.ok FlowControl.Hardware ∧
    SerialPort.flow_control
        (Except.ok { BaudRate := 0, ByteSize := 8, Parity := 0, StopBits := 0
                     fOutxCtsFlow := 0, fRtsControl := 0, fOutX := 1, fInX := 1 }) =
      Except.ok FlowControl.Software ∧
    SerialPort.flow_control
        (Except.ok { BaudRate := 0, ByteSize := 8, Parity := 0, StopBits := 0
                     fOutxCtsFlow := 0, fRtsControl := 0, fOutX := 0, fInX := 0 }) =
      Except.ok FlowControl.None :=
  ⟨(C6_flow_control_priority _).1 (Or.inl (by decide)),
   (C6_flow_control_priority _).2.1 rfl rfl (Or.inl (by decide)),
   (C6_flow_control_priority _).2.2 rfl rfl rfl rfl⟩

/-- Claim C9: the flow-control getter is total over the native flag domain —
whenever the control block is read successfully it returns `Ok` with one of
the three modes, and the `Unknown` decoding error is unreachable for this
field, in contrast to the data-bits, parity and stop-bits getters. -/
theorem C9_flow_control_total :
    (∀ d : DCB, ∃ fc : FlowControl,
      SerialPort.flow_control (Except.ok d) = Except.ok fc) ∧
    (∃ d : DCB, SerialPort.data_bits (Except.ok d) =
      Except.error { kind := ErrorKind.Unknown
                     description := "Invalid data bits setting encountered" }) ∧
    (∃ d : DCB, SerialPort.parity (Except.ok d) =
      Except.error { kind := ErrorKind.Unknown
                     description := "Invalid parity bits setting encountered" }) ∧
    (∃ d : DCB, SerialPort.stop_bits (Except.ok d) =
      Except.error { kind := ErrorKind.Unknown
                     description := "Invalid stop bits setting encountered" }) := by
  refine ⟨?_, ?_, ?_, ?_⟩
  · intro d
    by_cases h1 : d.fOutxCtsFlow ≠ 0 ∨ d.fRtsControl ≠ 0
    · exact ⟨FlowControl.Hardware, by simp [SerialPort.flow_control, h1]⟩
    · by_cases h2 : d.fOutX ≠ 0 ∨ d.fInX ≠ 0
      · exact ⟨FlowControl.Software, by simp [SerialPort.flow_control, h1, h2]⟩
      · exact ⟨FlowControl.None, by simp [SerialPort.flow_control, h1, h2]⟩
  · exact ⟨{ BaudRate := 0, ByteSize := 9, Parity := 9, StopBits := 9
             fOutxCtsFlow := 0, fRtsControl := 0, fOutX := 0, fInX := 0 }, by rfl⟩
  · exact ⟨{ BaudRate := 0, ByteSize := 9, Parity := 9, StopBits := 9
             fOutxCtsFlow := 0, fRtsControl := 0, fOutX := 0, fInX := 0 }, by rfl⟩
  · exact ⟨{ BaudRate := 0, ByteSize := 9, Parity := 9, StopBits := 9
             fOutxCtsFlow := 0, fRtsControl := 0, fOutX := 0, fInX := 0 }, by rfl⟩

/-- Claim C7: a successful duplicate returns a handle whose cache is a snapshot
of the source's cached timeouts at the instant of duplication, and the caches
are thereafter independent: successfully changing the read timeout on either
handle leaves the other handle's reported read timeout at the snapshot, so the
two diverge whenever the new value differs. -/
theorem C7_clone_snapshot :
    ∀ (dup : Except OsError Nat) (p c : SerialPort),
      SerialPort.try_clone dup p = Except.ok c →
      (c.read_timeout = p.read_timeout ∧ c.write_timeout = p.write_timeout ∧
        c.port_name = p.port_name) ∧
      (∀ (f : COMMTIMEOUTS → Except OsError Unit) (rt : Option Duration),
        f (comm_timeouts rt p.write_timeout) = Except.ok () → rt ≠ p.read_timeout →
        (SerialPort.set_read_timeout f p rt).2.read_timeout = rt ∧
        c.read_timeout = p.read_timeout ∧
        (SerialPort.set_read_timeout f p rt).2.read_timeout ≠ c.read_timeout) ∧
      (∀ (f : COMMTIMEOUTS → Except OsError Unit) (rt : Option Duration),
        f (comm_timeouts rt c.write_timeout) = Except.ok () → rt ≠ c.read_timeout →
        (SerialPort.set_read_timeout f c rt).2.read_timeout = rt ∧
        p.read_timeout ≠ (SerialPort.set_read_timeout f c rt).2.read_timeout) := by
  intro dup p c h
  cases dup with
  | error e => simp [SerialPort.try_clone] at h
  | ok nh =>
      simp [SerialPort.try_clone] at h
      subst h
      refine ⟨⟨rfl, rfl, rfl⟩, ?_, ?_⟩
      · intro f rt hf hne
        refine ⟨?_, rfl, ?_⟩
        · simp [SerialPort.set_read_timeout, SerialPort.set_timeouts, hf]
        · simp [SerialPort.set_read_timeout, SerialPort.set_timeouts, hf]
          exact hne
      · intro f rt hf hne
        constructor
        · simp [SerialPort.set_read_timeout, SerialPort.set_timeouts, hf]
        · simp [SerialPort.set_read_timeout, SerialPort.set_timeouts, hf]
          exact fun hh => hne hh.symm

theorem C7_witness :
    SerialPort.try_clone (Except.ok 2)
        { handle := 1, read_timeout := some { secs := 5, nanos := 0 }
          write_timeout := none, port_name := some "COM3" } =
      Except.ok { handle := 2, read_timeout := some { secs := 5, nanos := 0 }
                  write_timeout := none, port_name := some "COM3" } ∧
    (SerialPort.set_read_timeout (fun _ => Except.ok ())
        { handle := 1, read_timeout := some { secs := 5, nanos := 0 }
          write_timeout := none, port_name := some "COM3" } none).2.read_timeout = none ∧
    (SerialPort.set_read_timeout (fun _ => Except.ok ())
        { handle := 1, read_timeout := some { secs := 5, nanos := 0 }
          write_timeout := none, port_name := some "COM3" } none).2.read_timeout ≠
      ({ handle := 2, read_timeout := some { secs := 5, nanos := 0 }
         write_timeout := none, port_name := some "COM3" } : SerialPort).read_timeout := by
  have h := C7_clone_snapshot (Except.ok 2)
    { handle := 1, read_timeout := some { secs := 5, nanos := 0 }
      write_timeout := none, port_name := some "COM3" }
    { handle := 2, read_timeout := some { secs := 5, nanos := 0 }
      write_timeout := none, port_name := some "COM3" } rfl
  have h2 := h.2.1 (fun _ => Except.ok ()) none rfl (by decide)
  exact ⟨rfl, h2.1, h2.2.2⟩

/-- Claim C10: setting one direction's timeout preserves the other direction's
cached timeout, and does so by re-applying the cached other-direction value in
the same single native call: `set_read_timeout` is exactly `set_timeouts` with
the cached write timeout (whose converted value is placed in the write
total-timeout constant of the one `COMMTIMEOUTS` handed to the device), and
symmetrically for `set_write_timeout`. -/
theorem C10_other_direction_preserved :
    ∀ (f : COMMTIMEOUTS → Except OsError Unit) (p : SerialPort) (t : Option Duration),
      SerialPort.set_read_timeout f p t = SerialPort.set_timeouts f p t p.write_timeout ∧
      (comm_timeouts t p.write_timeout).WriteTotalTimeoutConstant =
        timeout_ms p.write_timeout ∧
      (f (comm_timeouts t p.write_timeout) = Except.ok () →
        (SerialPort.set_read_timeout f p t).1 = Except.ok () ∧
        (SerialPort.set_read_timeout f p t).2.write_timeout = p.write_timeout ∧
        (SerialPort.set_read_timeout f p t).2.read_timeout = t) ∧
      SerialPort.set_write_timeout f p t = SerialPort.set_timeouts f p p.read_timeout t ∧
      (comm_timeouts p.read_timeout t).ReadTotalTimeoutConstant =
        timeout_ms p.read_timeout ∧
      (f (comm_timeouts p.read_timeout t) = Except.ok () →
        (SerialPort.set_write_timeout f p t).1 = Except.ok () ∧
        (SerialPort.set_write_timeout f p t).2.read_timeout = p.read_timeout ∧
        (SerialPort.set_write_timeout f p t).2.write_timeout = t) := by
  intro f p t
  refine ⟨rfl, rfl, ?_, rfl, rfl, ?_⟩
  · intro h
    refine ⟨?_, ?_, ?_⟩ <;>
      simp [SerialPort.set_read_timeout, SerialPort.set_timeouts, h]
  · intro h
    refine ⟨?_, ?_, ?_⟩ <;>
      simp [SerialPort.set_write_timeout, SerialPort.set_timeouts, h]

theorem C10_witness :
    (SerialPort.set_read_timeout (fun _ => Except.ok ())
        { handle := 0, read_timeout := none, write_timeout := some { secs := 2, nanos := 0 }
          port_name := none } (some { secs := 1, nanos := 0 })).2.write_timeout =
      some { secs := 2, nanos := 0 } ∧
    (SerialPort.set_write_timeout (fun _ => Except.ok ())
        { handle := 0, read_timeout := some { secs := 3, nanos := 0 }, write_timeout := none
          port_name := none } (some { secs := 1, nanos := 0 })).2.read_timeout =
      some { secs := 3, nanos := 0 } :=
  ⟨((C10_other_direction_preserved (fun _ => Except.ok ())
      { handle := 0, read_timeout := none, write_timeout := some { secs := 2, nanos := 0 }
        port_name := none } (some { secs := 1, nanos := 0 })).2.2.1 rfl).2.1,
   ((C10_other_direction_preserved (fun _ => Except.ok ())
      { handle := 0, read_timeout := some { secs := 3, nanos := 0 }, write_timeout := none
        port_name := none } (some { secs := 1, nanos := 0 })).2.2.2.2.2 rfl).2.1⟩

theorem apply_builder_get_data_bits (d : DCB) (b : SerialPortBuilder) :
    SerialPort.data_bits (Except.ok (apply_builder d b)) = Except.ok b.data_bits := by
  obtain ⟨br, db, pa, sb, fc, rt, wt⟩ := b
  cases db <;> rfl

theorem apply_builder_get_parity (d : DCB) (b : SerialPortBuilder) :
    SerialPort.parity (Except.ok (apply_builder d b)) = Except.ok b.parity := by
  obtain ⟨br, db, pa, sb, fc, rt, wt⟩ := b
  cases pa <;> rfl

theorem apply_builder_get_stop_bits (d : DCB) (b : SerialPortBuilder) :
    SerialPort.stop_bits (Except.ok (apply_builder d b)) = Except.ok b.stop_bits := by
  obtain ⟨br, db, pa, sb, fc, rt, wt⟩ := b
  cases sb <;> rfl

theorem apply_builder_get_flow_control (d : DCB) (b : SerialPortBuilder) :
    SerialPort.flow_control (Except.ok (apply_builder d b)) = Except.ok b.flow_control := by
  obtain ⟨br, db, pa, sb, fc, rt, wt⟩ := b
  cases fc <;> rfl

theorem apply_builder_baud (d : DCB) (b : SerialPortBuilder) :
    (apply_builder d b).BaudRate = b.baud_rate := rfl

/-- Claim C8: `open` resolves the device name into the `\\.\`-prefixed
long-form path and requests exclusive read/write access (access mask
`GENERIC_READ | GENERIC_WRITE`, share mode 0); it fails with `NoDevice` when
access is denied or the device does not exist, with `InvalidInput` when the
name cannot be encoded as a native path, and with `Io` for any other native
failure — on every native failure path, the file creation as well as the
control-block read, commit and timeout calls; and on success the supplied
configuration — all five control-block settings and both timeouts — has been
fully applied (committed to the device) before the handle is returned. -/
theorem C8_open_contract :
    ∀ (env : NativeEnv) (builder : SerialPortBuilder) (path : String),
      resolve_name path = '\\' :: '\\' :: '.' :: '\\' :: (path.data ++ [Char.ofNat 0]) ∧
      (∀ e, env.createFile (resolve_name path) (GENERIC_READ ||| GENERIC_WRITE) 0 =
          Except.error e →
        SerialPort.open_port env builder path = Except.error (last_os_error e)) ∧
      (∀ handle e,
        env.createFile (resolve_name path) (GENERIC_READ ||| GENERIC_WRITE) 0 =
          Except.ok handle →
        env.get_dcb handle = Except.error e →
        SerialPort.open_port env builder path = Except.error (last_os_error e)) ∧
      (∀ handle d e,
        env.createFile (resolve_name path) (GENERIC_READ ||| GENERIC_WRITE) 0 =
          Except.ok handle →
        env.get_dcb handle = Except.ok d →
        env.set_dcb handle (apply_builder d builder) = Except.error e →
        SerialPort.open_port env builder path = Except.error (last_os_error e)) ∧
      (∀ handle d e,
        env.createFile (resolve_name path) (GENERIC_READ ||| GENERIC_WRITE) 0 =
          Except.ok handle →
        env.get_dcb handle = Except.ok d →
        env.set_dcb handle (apply_builder d builder) = Except.ok () →
        env.setCommTimeouts handle
          (comm_timeouts builder.read_timeout builder.write_timeout) = Except.error e →
        SerialPort.open_port env builder path = Except.error (last_os_error e)) ∧
      ((last_os_error OsError.accessDenied).kind = ErrorKind.NoDevice ∧
       (last_os_error OsError.fileNotFound).kind = ErrorKind.NoDevice ∧
       (last_os_error OsError.invalidName).kind = ErrorKind.InvalidInput ∧
       ∀ code, (last_os_error (OsError.other code)).kind = ErrorKind.Io) ∧
      (∀ port, SerialPort.open_port env builder path = Except.ok port →
        port.read_timeout = builder.read_timeout ∧
        port.write_timeout = builder.write_timeout ∧
        port.port_name = some path ∧
        ∃ (handle : Nat) (d : DCB),
          env.createFile (resolve_name path) (GENERIC_READ ||| GENERIC_WRITE) 0 =
            Except.ok handle ∧
          env.get_dcb handle = Except.ok d ∧
          env.set_dcb handle (apply_builder d builder) = Except.ok () ∧
          (apply_builder d builder).BaudRate = builder.baud_rate ∧
          SerialPort.data_bits (Except.ok (apply_builder d builder)) =
            Except.ok builder.data_bits ∧
          SerialPort.parity (Except.ok (apply_builder d builder)) =
            Except.ok builder.parity ∧
          SerialPort.stop_bits (Except.ok (apply_builder d builder)) =
            Except.ok builder.stop_bits ∧
          SerialPort.flow_control (Except.ok (apply_builder d builder)) =
            Except.ok builder.flow_control ∧
          env.setCommTimeouts handle
            (comm_timeouts builder.read_timeout builder.write_timeout) = Except.ok ()) := by
  intro env builder path
  refine ⟨rfl, ?_, ?_, ?_, ?_, ⟨rfl, rfl, rfl, fun _ => rfl⟩, ?_⟩
  · intro e h
    simp [SerialPort.open_port, h]
  · intro handle e h1 h2
    simp [SerialPort.open_port, h1, h2]
  · intro handle d e h1 h2 h3
    simp [SerialPort.open_port, h1, h2, h3]
  · intro handle d e h1 h2 h3 h4
    simp [SerialPort.open_port, h1, h2, h3, SerialPort.set_timeouts, h4]
  · intro port hp
    unfold SerialPort.open_port at hp
    cases hc : env.createFile (resolve_name path) (GENERIC_READ ||| GENERIC_WRITE) 0 with
    | error e => simp [hc] at hp
    | ok handle =>
        cases hd : env.get_dcb handle with
        | error e => simp [hc, hd] at hp
        | ok d =>
            cases hs : env.set_dcb handle (apply_builder d builder) with
            | error e => simp [hc, hd, hs] at hp
            | ok u =>
                cases u
                cases ht : env.setCommTimeouts handle
                    (comm_timeouts builder.read_timeout builder.write_timeout) with
                | error e => simp [hc, hd, hs, SerialPort.set_timeouts, ht] at hp
                | ok v =>
                    cases v
                    simp [hc, hd, hs, SerialPort.set_timeouts, ht] at hp
                    subst hp
                    exact ⟨rfl, rfl, rfl, handle, d, rfl, hd, hs, rfl,
                      apply_builder_get_data_bits d builder,
                      apply_builder_get_parity d builder,
                      apply_builder_get_stop_bits d builder,
                      apply_builder_get_flow_control d builder, ht⟩

theorem C8_witness :
    SerialPort.open_port
        { createFile := fun _ _ _ => Except.error OsError.accessDenied
          get_dcb := fun _ =>
            Except.ok { BaudRate := 0, ByteSize := 0, Parity := 0, StopBits := 0
                        fOutxCtsFlow := 0, fRtsControl := 0, fOutX := 0, fInX := 0 }
          set_dcb := fun _ _ => Except.ok ()
          setCommTimeouts := fun _ _ => Except.ok () }
        { baud_rate := 9600, data_bits := DataBits.Eight, parity := Parity.None
          stop_bits := StopBits.One, flow_control := FlowControl.None
          read_timeout := some { secs := 1, nanos := 0 }, write_timeout := none }
        "COM3" = Except.error (last_os_error OsError.accessDenied) ∧
    SerialPort.open_port
        { createFile := fun _ _ _ => Except.ok 7
          get_dcb := fun _ => Except.error (OsError.other 5)
          set_dcb := fun _ _ => Except.ok ()
          setCommTimeouts := fun _ _ => Except.ok () }
        { baud_rate := 9600, data_bits := DataBits.Eight, parity := Parity.None
          stop_bits := StopBits.One, flow_control := FlowControl.None
          read_timeout := some { secs := 1, nanos := 0 }, write_timeout := none }
        "COM3" = Except.error (last_os_error (OsError.other 5)) ∧
    (last_os_error OsError.accessDenied).kind = ErrorKind.NoDevice ∧
    (last_os_error (OsError.other 5)).kind = ErrorKind.Io ∧
    ({ handle := 7, read_timeout := some { secs := 1, nanos := 0 }, write_timeout := none
       port_name := some "COM3" } : SerialPort).read_timeout =
      some { secs := 1, nanos := 0 } ∧
    ({ handle := 7, read_timeout := some { secs := 1, nanos := 0 }, write_timeout := none
       port_name := some "COM3" } : SerialPort).port_name = some "COM3" :=
  ⟨(C8_open_contract
      { createFile := fun _ _ _ => Except.error OsError.accessDenied
        get_dcb := fun _ =>
          Except.ok { BaudRate := 0, ByteSize := 0, Parity := 0, StopBits := 0
                      fOutxCtsFlow := 0, fRtsControl := 0, fOutX := 0, fInX := 0 }
        set_dcb := fun _ _ => Except.ok ()
        setCommTimeouts := fun _ _ => Except.ok () }
      { baud_rate := 9600, data_bits := DataBits.Eight, parity := Parity.None
        stop_bits := StopBits.One, flow_control := FlowControl.None
        read_timeout := some { secs := 1, nanos := 0 }, write_timeout := none }
      "COM3").2.1 OsError.accessDenied rfl,
   (C8_open_contract
      { createFile := fun _ _ _ => Except.ok 7
        get_dcb := fun _ => Except.error (OsError.other 5)
        set_dcb := fun _ _ => Except.ok ()
        setCommTimeouts := fun _ _ => Except.ok () }
      { baud_rate := 9600, data_bits := DataBits.Eight, parity := Parity.None
        stop_bits := StopBits.One, flow_control := FlowControl.None
        read_timeout := some { secs := 1, nanos := 0 }, write_timeout := none }
      "COM3").2.2.1 7 (OsError.other 5) rfl rfl,
   (C8_open_contract
      { createFile := fun _ _ _ => Except.error OsError.accessDenied
        get_dcb := fun _ =>
          Except.ok { BaudRate := 0, ByteSize := 0, Parity := 0, StopBits := 0
                      fOutxCtsFlow := 0, fRtsControl := 0, fOutX := 0, fInX := 0 }
        set_dcb := fun _ _ => Except.ok ()
        setCommTimeouts := fun _ _ => Except.ok () }
      { baud_rate := 9600, data_bits := DataBits.Eight, parity := Parity.None
        stop_bits := StopBits.One, flow_control := FlowControl.None
        read_timeout := some { secs := 1, nanos := 0 }, write_timeout := none }
      "COM3").2.2.2.2.2.1.1,
   (C8_open_contract
      { createFile := fun _ _ _ => Except.error OsError.accessDenied
        get_dcb := fun _ =>
          Except.ok { BaudRate := 0, ByteSize := 0, Parity := 0, StopBits := 0
                      fOutxCtsFlow := 0, fRtsControl := 0, fOutX := 0, fInX := 0 }
        set_dcb := fun _ _ => Except.ok ()
        setCommTimeouts := fun _ _ => Except.ok () }
      { baud_rate := 9600, data_bits := DataBits.Eight, parity := Parity.None
        stop_bits := StopBits.One, flow_control := FlowControl.None
        read_timeout := some { secs := 1, nanos := 0 }, write_timeout := none }
      "COM3").2.2.2.2.2.1.2.2.2 5,
   ((C8_open_contract
      { createFile := fun _ _ _ => Except.ok 7
        get_dcb := fun _ =>
          Except.ok { BaudRate := 0, ByteSize := 0, Parity := 0, StopBits := 0
                      fOutxCtsFlow := 0, fRtsControl := 0, fOutX := 0, fInX := 0 }
        set_dcb := fun _ _ => Except.ok ()
        setCommTimeouts := fun _ _ => Except.ok () }
      { baud_rate := 9600, data_bits := DataBits.Eight, parity := Parity.None
        stop_bits := StopBits.One, flow_control := FlowControl.None
        read_timeout := some { secs := 1, nanos := 0 }, write_timeout := none }
      "COM3").2.2.2.2.2.2
      { handle := 7, read_timeout := some { secs := 1, nanos := 0 }, write_timeout := none
        port_name := some "COM3" } rfl).1,
   ((C8_open_contract
      { createFile := fun _ _ _ => Except.ok 7
        get_dcb := fun _ =>
          Except.ok { BaudRate := 0, ByteSize := 0, Parity := 0, StopBits := 0
                      fOutxCtsFlow := 0, fRtsControl := 0, fOutX := 0, fInX := 0 }
        set_dcb := fun _ _ => Except.ok ()
        setCommTimeouts := fun _ _ => Except.ok () }
      { baud_rate := 9600, data_bits := DataBits.Eight, parity := Parity.None
        stop_bits := StopBits.One, flow_control := FlowControl.None
        read_timeout := some { secs := 1, nanos := 0 }, write_timeout := none }
      "COM3").2.2.2.2.2.2
      { handle := 7, read_timeout := some { secs := 1, nanos := 0 }, write_timeout := none
        port_name := some "COM3" } rfl).2.2.1⟩
